import Mathlib

/-!
Shallow embedding of the vercel2-main user-management front end
(js/api.js, js/ui.js, js/app.js).

Strings are modelled as Lean `String` (JS `.length` counts UTF-16 units;
all the constants involved are ASCII, where the two notions coincide).
JS values that may be a string, `null` or `undefined` are modelled by
`JsStrVal`; JS truthiness of such a value is `JsStrVal.truthy`.  Fallible
JS code (code that may `throw`) is embedded as `Except JsErr _`.
-/

instance {ε α : Type} [DecidableEq ε] [DecidableEq α] : DecidableEq (Except ε α) := fun x y =>
  match x, y with
  | .ok a, .ok b =>
    if h : a = b then .isTrue (by rw [h]) else .isFalse (by simp [h])
  | .error a, .error b =>
    if h : a = b then .isTrue (by rw [h]) else .isFalse (by simp [h])
  | .ok _, .error _ => .isFalse (by simp)
  | .error _, .ok _ => .isFalse (by simp)

/-- A JavaScript value that is a string, `null`, or `undefined`
(the three shapes the record fields take in this code base). -/
inductive JsStrVal where
  | str (s : String)
  | null
  | undefined
deriving DecidableEq

/-- JS truthiness for a string-or-null-or-undefined value: `null`,
`undefined` and the empty string are falsy, every other string truthy. -/
def JsStrVal.truthy : JsStrVal → Bool
  | .str s => !s.data.isEmpty
  | .null => false
  | .undefined => false

/-- The underlying string of a `JsStrVal`; only used at spots where the
source has already established (by truthiness short-circuit) that the
value is a string. -/
def JsStrVal.strOrEmpty : JsStrVal → String
  | .str s => s
  | _ => ""

/-- A character removed by `String.prototype.trim`: the ECMAScript
WhiteSpace and LineTerminator sets (tab, LF, VT, FF, CR, space, NBSP,
BOM, the Unicode space separators, LS, PS). -/
def isJsWhitespace (c : Char) : Bool :=
  c.toNat = 9 || c.toNat = 10 || c.toNat = 11 || c.toNat = 12 || c.toNat = 13 ||
    c.toNat = 32 || c.toNat = 160 || c.toNat = 0xfeff || c.toNat = 0x1680 ||
    (0x2000 ≤ c.toNat && c.toNat ≤ 0x200a) || c.toNat = 0x2028 || c.toNat = 0x2029 ||
    c.toNat = 0x202f || c.toNat = 0x205f || c.toNat = 0x3000

/-- JavaScript `String.prototype.trim`: strip leading and trailing
whitespace. -/
def jsTrim (s : String) : String :=
  String.mk (((s.data.dropWhile isJsWhitespace).reverse.dropWhile isJsWhitespace).reverse)

/-- JavaScript `String.prototype.split` with a single-character separator,
on the character list of the string: `"a@b".split("@") = ["a","b"]`,
`"".split("@") = [""]`, `"@".split("@") = ["",""]`. -/
def splitOnChar (sep : Char) : List Char → List (List Char)
  | [] => [[]]
  | c :: cs =>
    match splitOnChar sep cs with
    | [] => [[]]
    | h :: t => if c = sep then [] :: h :: t else (c :: h) :: t

/-- The character class `[a-zA-Z0-9]` of the email regex. -/
def isAlnum (c : Char) : Bool := c.isAlpha || c.isDigit

/-- The local-part character class of the email regex in
`API.esEmailValido`: letters, digits, and the listed specials (dot, bang,
hash, dollar, percent, ampersand, apostrophe (39), star, plus, slash,
equals, question mark, caret, underscore, backtick (96), left brace (123),
pipe, right brace (125), tilde, hyphen). -/
def isLocalChar (c : Char) : Bool :=
  isAlnum c ||
    ([ '.', '!', '#', '$', '%', '&', Char.ofNat 39, '*', '+', '/', '=', '?', '^', '_',
       Char.ofNat 96, Char.ofNat 123, '|', Char.ofNat 125, '~', '-']).contains c

/-- A string matching one domain label of the regex,
`[a-zA-Z0-9]([a-zA-Z0-9-]` 0 to 61 times `[a-zA-Z0-9])?`: equivalently,
1 to 63 characters, all alphanumeric or hyphen, with alphanumeric first
and last character. -/
def matchesLabel (l : List Char) : Bool :=
  decide (1 ≤ l.length) && decide (l.length ≤ 63) &&
    l.all (fun c => isAlnum c || c = '-') &&
    isAlnum (l.headD ' ') && isAlnum (l.getLastD ' ')

/-- Whether the anchored regex of `API.esEmailValido` accepts the string:
`local@domain` with a nonempty local part over `isLocalChar` and a domain
that is a dot-separated sequence of `matchesLabel` labels.  Since neither
side of the pattern can contain `@`, the regex accepts exactly the strings
that split at `@` into two such pieces, and since labels cannot contain
dots, the domain part matches `label(\.label)*` exactly when every piece
of its dot-split matches `matchesLabel`. -/
def emailRegexTest (l : List Char) : Bool :=
  match splitOnChar '@' l with
  | [localPart, domain] =>
    (!localPart.isEmpty) && localPart.all isLocalChar &&
      (splitOnChar '.' domain).all matchesLabel
  | _ => false

/-- Whether the character list contains two consecutive dots
(JS `email.includes("..")`). -/
def containsDoubleDot : List Char → Bool
  | [] => false
  | [_] => false
  | a :: b :: rest => (a = '.' && b = '.') || containsDoubleDot (b :: rest)

/-- The local part extracted the way the source does,
`email.split("@")[0]`. -/
def localPartOf (l : List Char) : List Char := (splitOnChar '@' l).headD []

/-- The domain extracted the way the source does, `email.split("@")[1]`. -/
def domainOf (l : List Char) : List Char := (splitOnChar '@' l).getD 1 []

/-- The dot-separated pieces of the domain, `domain.split(".")`. -/
def domainPartsOf (l : List Char) : List (List Char) := splitOnChar '.' (domainOf l)

/-- The final domain label, `domainParts[domainParts.length - 1]`. -/
def tldOf (l : List Char) : List Char :=
  (domainPartsOf l).getD ((domainPartsOf l).length - 1) []

/-- `API.esEmailValido` on the character list of its string argument,
check for check in source order: the length guard, the regex test, the
exactly-one-`@` check, the local-part length bound, the at-least-two
domain labels check, the TLD length check, the consecutive-dots check,
and the local-part leading/trailing dot check. -/
def esEmailValidoList (l : List Char) : Bool :=
  if l.isEmpty ∨ 254 < l.length then false
  else if ¬ emailRegexTest l then false
  else if (splitOnChar '@' l).length ≠ 2 then false
  else if 64 < (localPartOf l).length then false
  else if (domainPartsOf l).length < 2 then false
  else if (tldOf l).length < 2 then false
  else if containsDoubleDot l then false
  else if (localPartOf l).head? = some '.' ∨ (localPartOf l).getLast? = some '.' then false
  else true

/-- `API.esEmailValido` restricted to string arguments (the guard `!email`
is the emptiness test there; `null`/`undefined` arguments are handled by
`esEmailValidoJS` below). -/
def esEmailValido (email : String) : Bool :=
  esEmailValidoList email.data

/-- `API.esEmailValido` on a string, `null` or `undefined` argument.  The
initial guard `if (!email || email.length > 254) return false` is
evaluated left to right, so for the falsy arguments `null`, `undefined`
and `""` the function returns `false` before `email.length` (or any later
string operation) is ever read; consequently the embedding never
produces an error. -/
def esEmailValidoJS (email : JsStrVal) : Except String Bool :=
  if email.truthy = false then .ok false
  else .ok (esEmailValido email.strOrEmpty)

/-- A parsed response body as `handleResponse` sees it: either a JSON
object, of which the error path only ever reads the `detalles` field (an
array of strings, or absent) and the `error` field (a string, or absent),
or a raw text body. -/
inductive BodyData where
  | json (detalles : Option (List String)) (error : Option String)
  | text (s : String)
deriving DecidableEq

/-- The JavaScript error values thrown by this code base: the structured
`ApiError` of api.js (message, HTTP status, optional details payload), a
`TypeError` (thrown by the id checks, and by reading a property of
`undefined`), a plain `Error` (thrown by `validarDatosUsuario`), and a
`DOMException` named AbortError (how `fetch` rejects when its signal is
aborted). -/
inductive JsErr where
  | apiError (message : String) (status : Nat) (details : Option BodyData)
  | typeError (message : String)
  | plainError (message : String)
  | abortError (message : String)
deriving DecidableEq

/-- The `name` property of the error (`"ApiError"` is set in the ApiError
constructor; the others are the built-in class names). -/
def JsErr.name : JsErr → String
  | .apiError .. => "ApiError"
  | .typeError _ => "TypeError"
  | .plainError _ => "Error"
  | .abortError _ => "AbortError"

/-- The `message` property of the error. -/
def JsErr.message : JsErr → String
  | .apiError m _ _ => m
  | .typeError m => m
  | .plainError m => m
  | .abortError m => m

/-- Whether the error is an `instanceof ApiError`. -/
def JsErr.isApiError : JsErr → Bool
  | .apiError .. => true
  | _ => false

/-- A candidate user record as passed to `API.validarDatosUsuario`: each
field is a string, `null`, or `undefined` (absent). -/
structure Usuario where
  nombre : JsStrVal
  email : JsStrVal
  password : JsStrVal
deriving DecidableEq

/-- `API.validarDatosUsuario(usuario, esEdicion)`, embedded as a function
returning the thrown error, if any.  Check for check in source order:

* `!usuario.nombre || usuario.nombre.trim().length < 2` throws (the
  short-circuit guarantees `.trim()` is only read on a string);
* `!usuario.email || !this.esEmailValido(usuario.email)` throws likewise;
* in edit mode, `usuario.password !== null && usuario.password.length < 6`
  throws; note that for an `undefined` password the strict inequality
  `undefined !== null` is true, so `usuario.password.length` is read and
  itself throws a TypeError (the exact engine message text varies; V8
  wording without its apostrophes is used here);
* in create mode, `!usuario.password || usuario.password.length < 6`
  throws, the short-circuit again protecting the `.length` read. -/
def validarDatosUsuario (usuario : Usuario) (esEdicion : Bool) : Except JsErr Unit :=
  if usuario.nombre.truthy = false ∨ (jsTrim usuario.nombre.strOrEmpty).length < 2 then
    .error (.plainError "El nombre debe tener al menos 2 caracteres")
  else if usuario.email.truthy = false ∨ esEmailValido usuario.email.strOrEmpty = false then
    .error (.plainError "El email no es válido")
  else if esEdicion then
    match usuario.password with
    | .null => .ok ()
    | .undefined => .error (.typeError "Cannot read properties of undefined (reading length)")
    | .str p =>
      if p.length < 6 then
        .error (.plainError "La contraseña debe tener al menos 6 caracteres (o déjela vacía para no cambiarla)")
      else .ok ()
  else
    if usuario.password.truthy = false then
      .error (.plainError "La contraseña es obligatoria y debe tener al menos 6 caracteres")
    else if usuario.password.strOrEmpty.length < 6 then
      .error (.plainError "La contraseña es obligatoria y debe tener al menos 6 caracteres")
    else .ok ()

/-- An HTTP response as `handleResponse` consumes it: the status code,
whether the content-type header is present and includes
`application/json`, and what parsing the body would yield: the two JSON
fields the error path reads (when parsed as JSON) or the raw text (when
read as text). -/
structure HttpResponse where
  status : Nat
  isJson : Bool
  detalles : Option (List String)
  errorField : Option String
  textBody : String
deriving DecidableEq

/-- The parse step of `handleResponse`: `response.json()` when the
content-type includes `application/json`, `response.text()` otherwise. -/
def parsedBody (r : HttpResponse) : BodyData :=
  if r.isJson then .json r.detalles r.errorField else .text r.textBody

/-- The `ok` property of a fetch `Response`: status in the range 200-299. -/
def responseOk (r : HttpResponse) : Bool :=
  decide (200 ≤ r.status) && decide (r.status ≤ 299)

/-- The error message `handleResponse` computes for a failed response:
`data.detalles ? data.detalles.join(", ") : data.error || "Error desconocido"`.
A present `detalles` field is an array, which is always truthy in JS (even
when empty), so it wins whenever present; a present but empty `error`
string is falsy and falls through to the generic fallback; a text body has
neither property, so it always yields the fallback. -/
def bodyErrorMessage : BodyData → String
  | .json (some l) _ => String.intercalate ", " l
  | .json none (some e) => if e.isEmpty then "Error desconocido" else e
  | .json none none => "Error desconocido"
  | .text _ => "Error desconocido"

/-- What `handleResponse` returns on success: the literal sentinel
`{success: true}` from the 204 branch, or the parsed body. -/
inductive HandleResult where
  | success
  | data (d : BodyData)
deriving DecidableEq

/-- `handleResponse(response)`: a 204 status returns the success sentinel
before the body is touched; otherwise the body is parsed per content-type
and, when `response.ok` is false, an `ApiError` carrying the computed
message, the numeric status and the parsed body is thrown. -/
def handleResponse (r : HttpResponse) : Except JsErr HandleResult :=
  if r.status = 204 then .ok .success
  else
    let data := parsedBody r
    if responseOk r = false then
      .error (.apiError (bodyErrorMessage data) r.status (some data))
    else .ok (.data data)

/-- The outcome of the underlying `fetch` call inside `fetchWithTimeout`:
it resolves with a response, or rejects with an error.  Expiry of the
timeout timer aborts the request through the `AbortController`, which
surfaces as the fetch promise rejecting with an AbortError. -/
inductive FetchOutcome where
  | resolved (r : HttpResponse)
  | rejected (e : JsErr)
deriving DecidableEq

/-- `fetchWithTimeout`, as a function of the fetch outcome: a resolved
response is returned; a rejection named AbortError is replaced by
`new ApiError("La petición excedió el tiempo de espera", 408)` (details
defaulting to null); every other rejection is rethrown unchanged. -/
def fetchWithTimeout : FetchOutcome → Except JsErr HttpResponse
  | .resolved r => .ok r
  | .rejected e =>
    if e.name = "AbortError" then
      .error (.apiError "La petición excedió el tiempo de espera" 408 none)
    else .error e

/-- `API_CONFIG.BASE_URL` from api.js. -/
def API_BASE_URL : String := "https://usuarios-mvgv.onrender.com/api/usuarios"

/-- A JavaScript value passed as an id to the single-record operations.
The id guard inspects the value only through `Number.isInteger(id)` and,
when that is true, through `id <= 0` and string interpolation; so the
embedding keeps integer numbers exactly and collapses every value with
`Number.isInteger(value) = false` (non-integer numbers, strings, `null`,
`undefined`, objects, `NaN`, ...) into `nonInt` carrying the text its
interpolation `typeof id (id)` would render. -/
inductive IdVal where
  | int (n : Int)
  | nonInt (shown : String)
deriving DecidableEq

/-- The interpolated tail of the id TypeError message,
`typeof id (id)`. -/
def idDescr : IdVal → String
  | .int n => "number (" ++ toString n ++ ")"
  | .nonInt shown => shown

/-- The TypeError thrown by the id guard of `obtenerUsuarioPorId`,
`actualizarUsuario` and `eliminarUsuario`. -/
def idTypeError (id : IdVal) : JsErr :=
  .typeError ("El ID debe ser un número entero positivo. Recibido: " ++ idDescr id)

/-- The id guard as a predicate: the guard
`if (!Number.isInteger(id) || id <= 0) throw new TypeError(...)` passes
exactly on integers strictly greater than zero. -/
def esIdValido : IdVal → Bool
  | .int n => decide (0 < n)
  | .nonInt _ => false

/-- The HTTP request an API operation hands to `fetchWithTimeout`. -/
structure HttpRequest where
  method : String
  url : String
  body : Option String
deriving DecidableEq

/-- Hex digit used by the `\u00XX` escapes of `JSON.stringify`. -/
def hexDigitChar (n : Nat) : Char :=
  if n < 10 then Char.ofNat (48 + n) else Char.ofNat (87 + n)

/-- The escaping `JSON.stringify` applies inside a quoted string:
backslash-escapes for quote, backslash, backspace, tab, LF, FF, CR, and
`\u00XX` for the remaining control characters. -/
def jsonEscapeChar (c : Char) : String :=
  if c = '"' then "\\\""
  else if c = '\\' then "\\\\"
  else if c.toNat = 8 then "\\b"
  else if c.toNat = 9 then "\\t"
  else if c.toNat = 10 then "\\n"
  else if c.toNat = 12 then "\\f"
  else if c.toNat = 13 then "\\r"
  else if c.toNat < 32 then
    "\\u00" ++ String.singleton (hexDigitChar (c.toNat / 16)) ++
      String.singleton (hexDigitChar (c.toNat % 16))
  else String.singleton c

/-- A JSON string literal as `JSON.stringify` renders it. -/
def jsonQuote (s : String) : String :=
  "\"" ++ String.join (s.data.map jsonEscapeChar) ++ "\""

/-- One `key: value` member of the stringified record: a string value is
quoted, `null` renders as `null`, and an `undefined`-valued property is
omitted entirely by `JSON.stringify`. -/
def stringifyField (key : String) : JsStrVal → Option String
  | .str s => some (jsonQuote key ++ ":" ++ jsonQuote s)
  | .null => some (jsonQuote key ++ ":null")
  | .undefined => none

/-- Comma-separated concatenation of the rendered members. -/
def joinComma : List String → String
  | [] => ""
  | [s] => s
  | s :: rest => s ++ "," ++ joinComma rest

/-- `JSON.stringify(usuario)` for a record with the three own properties
`nombre`, `email`, `password` in insertion order. -/
def stringifyUsuario (u : Usuario) : String :=
  "\x7b" ++
    joinComma
      (([stringifyField "nombre" u.nombre, stringifyField "email" u.email,
         stringifyField "password" u.password]).filterMap id) ++
    "\x7d"

/-- `API.obtenerUsuarioPorId(id)` up to the point its GET request is
handed to `fetchWithTimeout`: the id guard throws its TypeError first, so
an invalid id produces an error and no request; a valid id produces the
request on `BASE_URL/id`.  The `||` in the guard short-circuits, so
`id <= 0` is only evaluated on numbers. -/
def obtenerUsuarioPorId : IdVal → Except JsErr HttpRequest
  | .int n =>
    if n ≤ 0 then .error (idTypeError (.int n))
    else .ok ⟨"GET", API_BASE_URL ++ "/" ++ toString n, none⟩
  | .nonInt shown => .error (idTypeError (.nonInt shown))

/-- `API.eliminarUsuario(id)` up to the point its DELETE request is
handed to `fetchWithTimeout`; same id guard as `obtenerUsuarioPorId`. -/
def eliminarUsuario : IdVal → Except JsErr HttpRequest
  | .int n =>
    if n ≤ 0 then .error (idTypeError (.int n))
    else .ok ⟨"DELETE", API_BASE_URL ++ "/" ++ toString n, none⟩
  | .nonInt shown => .error (idTypeError (.nonInt shown))

/-- `API.actualizarUsuario(id, usuario)` up to the point its PUT request
is handed to `fetchWithTimeout`: the id guard throws first, then
`validarDatosUsuario(usuario, true)` runs, and only then is the PUT with
the stringified record issued. -/
def actualizarUsuario (id : IdVal) (usuario : Usuario) : Except JsErr HttpRequest :=
  match id with
  | .nonInt shown => .error (idTypeError (.nonInt shown))
  | .int n =>
    if n ≤ 0 then .error (idTypeError (.int n))
    else
      match validarDatosUsuario usuario true with
      | .error e => .error e
      | .ok _ => .ok ⟨"PUT", API_BASE_URL ++ "/" ++ toString n, some (stringifyUsuario usuario)⟩

/-- `UI.obtenerDatosFormulario`, as a function of the three raw form
field values: name and email are trimmed; the trimmed password is mapped
through `passwordValue || null`, so a password that is empty after
trimming becomes `null`. -/
def obtenerDatosFormulario (nombre email password : String) : Usuario :=
  let passwordValue := jsTrim password
  ⟨.str (jsTrim nombre), .str (jsTrim email),
    if passwordValue.data.isEmpty then .null else .str passwordValue⟩

/-- `UI.escaparHTML(texto)` assigns `div.textContent = texto` and returns
`div.innerHTML`.  Reading `innerHTML` serializes the text node by the
WHATWG HTML fragment serialization algorithm ("escaping a string",
attribute mode off), which rewrites ampersand to `&amp;`, no-break space
to `&nbsp;`, `<` to `&lt;` and `>` to `&gt;`, and leaves every other
character - including both quote characters - unchanged. -/
def escaparHTML (texto : String) : String :=
  String.join (texto.data.map fun c =>
    if c = '&' then "&amp;"
    else if c.toNat = 160 then "&nbsp;"
    else if c = '<' then "&lt;"
    else if c = '>' then "&gt;"
    else String.singleton c)

/-- `App.manejarError(error, mensajeGenerico)`, as the message it passes
to `UI.mostrarAlerta`: for an ApiError the message defaults to the error
message and is overridden by the 400/404/409/500 cases of the switch; a
non-ApiError contributes its own message when that is truthy (nonempty),
and otherwise the supplied generic message stands. -/
def manejarError (error : JsErr) (mensajeGenerico : String) : String :=
  match error with
  | .apiError msg status _ =>
    if status = 400 then "Error de validación: " ++ msg
    else if status = 404 then "Usuario no encontrado"
    else if status = 409 then msg
    else if status = 500 then "Error interno del servidor. Intente nuevamente."
    else msg
  | e => if e.message.data.isEmpty then mensajeGenerico else e.message

theorem splitOnChar_ne_nil (sep : Char) (l : List Char) : splitOnChar sep l ≠ [] := by
  cases l with
  | nil => simp [splitOnChar]
  | cons c cs =>
    unfold splitOnChar
    cases h : splitOnChar sep cs with
    | nil => simp
    | cons a t =>
      by_cases hc : c = sep <;> simp [hc]

/-- The number of pieces produced by `splitOnChar` is the separator count
plus one, so a string splits at `@` into exactly two pieces iff it
contains exactly one `@`. -/
theorem splitOnChar_length (sep : Char) (l : List Char) :
    (splitOnChar sep l).length = l.count sep + 1 := by
  induction l with
  | nil => rfl
  | cons c cs ih =>
    unfold splitOnChar
    cases h : splitOnChar sep cs with
    | nil => exact absurd h (splitOnChar_ne_nil sep cs)
    | cons a t =>
      rw [h] at ih
      simp only [List.length_cons] at ih
      by_cases hc : c = sep <;> simp [hc, List.count_cons] <;> omega

/-- Every string the validator accepts satisfies all of its guards: the
length bound, the exactly-one-`@` split, the local-part bound, the TLD
bound, no consecutive dots, and no leading or trailing dot on the local
part. -/
theorem esEmailValidoList_true (l : List Char) (h : esEmailValidoList l = true) :
    l.length ≤ 254 ∧ (splitOnChar '@' l).length = 2 ∧ (localPartOf l).length ≤ 64 ∧
      2 ≤ (tldOf l).length ∧ containsDoubleDot l = false ∧
      (localPartOf l).head? ≠ some '.' ∧ (localPartOf l).getLast? ≠ some '.' := by
  unfold esEmailValidoList at h
  repeat' split at h
  any_goals simp at h
  push_neg at *
  refine ⟨by omega, by omega, by omega, by omega, ?_, ?_, ?_⟩
  · simp_all
  · tauto
  · tauto

/-- After the name and email checks pass, `validarDatosUsuario` reduces to
exactly its password branch. -/
theorem validarDatosUsuario_password_step (nombre email pw : JsStrVal) (m : Bool)
    (hn : nombre.truthy = true) (hn2 : 2 ≤ (jsTrim nombre.strOrEmpty).length)
    (hv : email.truthy = true) (he : esEmailValido email.strOrEmpty = true) :
    validarDatosUsuario ⟨nombre, email, pw⟩ m =
      if m then
        (match pw with
         | .null => .ok ()
         | .undefined => .error (.typeError "Cannot read properties of undefined (reading length)")
         | .str p =>
           if p.length < 6 then
             .error (.plainError
               "La contraseña debe tener al menos 6 caracteres (o déjela vacía para no cambiarla)")
           else .ok ())
      else
        if pw.truthy = false then
          .error (.plainError "La contraseña es obligatoria y debe tener al menos 6 caracteres")
        else if pw.strOrEmpty.length < 6 then
          .error (.plainError "La contraseña es obligatoria y debe tener al menos 6 caracteres")
        else .ok () := by
  have hg1 : ¬(JsStrVal.truthy nombre = false ∨ (jsTrim nombre.strOrEmpty).length < 2) := by
    rw [hn]; push_neg
    exact ⟨fun hc => Bool.noConfusion hc, by omega⟩
  have hg2 : ¬(JsStrVal.truthy email = false ∨ esEmailValido email.strOrEmpty = false) := by
    rw [hv, he]; push_neg
    exact ⟨fun hc => Bool.noConfusion hc, fun hc => Bool.noConfusion hc⟩
  unfold validarDatosUsuario
  dsimp only
  rw [if_neg hg1, if_neg hg2]

/-- The id TypeError message starts with the letter E for every id,
because its fixed prefix does. -/
theorem idMsg_head (d : String) :
    ("El ID debe ser un número entero positivo. Recibido: " ++ d).data.head? = some 'E' := by
  rw [String.data_append, List.head?_append_of_ne_nil _ (by decide)]
  decide

/-- The TypeError raised by reading `length` of an undefined password is
never the id-guard TypeError: their messages differ in the first
character. -/
theorem undefinedLength_ne_idMsg (id : IdVal) :
    JsErr.typeError "Cannot read properties of undefined (reading length)" ≠ idTypeError id := by
  intro h
  unfold idTypeError at h
  have hm : ("Cannot read properties of undefined (reading length)" : String) =
      "El ID debe ser un número entero positivo. Recibido: " ++ idDescr id := by
    injection h
  have h1 := congrArg (fun s : String => s.data.head?) hm
  simp only [idMsg_head] at h1
  exact absurd h1 (by decide)

/-- No error thrown by `validarDatosUsuario` is the id-guard TypeError:
its plain Errors differ by class, and its one TypeError differs by
message. -/
theorem validar_error_ne_idTypeError (u : Usuario) (m : Bool) (id : IdVal) (e : JsErr)
    (he : validarDatosUsuario u m = .error e) : e ≠ idTypeError id := by
  unfold validarDatosUsuario at he
  repeat' split at he
  all_goals first
    | exact absurd he (fun hc => Except.noConfusion hc)
    | (injection he with h2; subst h2;
       first
         | exact undefinedLength_ne_idMsg id
         | (intro hc; unfold idTypeError at hc; exact JsErr.noConfusion hc))

/-- A nonempty string has a nonempty character list. -/
theorem string_data_isEmpty_false (m : String) (h : m ≠ "") : m.data.isEmpty = false := by
  cases hm : m.data.isEmpty with
  | false => rfl
  | true =>
    refine absurd (String.ext ?_) h
    simpa [List.isEmpty_iff] using hm

/-- The stringified record of a null-password user spells out
`"password":null` in its rendered JSON body. -/
theorem stringify_null_password (a b : String) :
    stringifyUsuario ⟨.str a, .str b, .null⟩ =
      "\x7b\"nombre\":" ++ jsonQuote a ++ ",\"email\":" ++ jsonQuote b ++
        ",\"password\":null\x7d" := by
  have hq1 : jsonQuote "nombre" = "\"nombre\"" := by decide
  have hq2 : jsonQuote "email" = "\"email\"" := by decide
  have hq3 : jsonQuote "password" = "\"password\"" := by decide
  unfold stringifyUsuario stringifyField
  dsimp only
  simp only [List.filterMap, id, joinComma]
  rw [hq1, hq2, hq3]
  apply String.ext
  simp [String.data_append]

/-- C1 counterexample: a record whose name and email checks pass, with an
absent (undefined) password, in edit mode.  The claim says a null or
absent password is accepted there, but `undefined !== null` holds under
strict inequality, so the code reads `.length` of `undefined` and raises
a TypeError. -/
theorem validarDatosUsuario_edit_absent_password_raises :
    validarDatosUsuario ⟨.str "Juan", .str "juan@example.com", .undefined⟩ true =
      .error (.typeError "Cannot read properties of undefined (reading length)") := by
  decide

/-- C1 (amended): for every record whose name and email checks pass, in
edit mode a null password is accepted while an absent (undefined)
password raises (a TypeError from reading the length of undefined) and a
non-null string password shorter than 6 characters raises; in create
mode a null or absent password, or a password shorter than 6 characters,
always raises. -/
theorem validarDatosUsuario_password_branching (nombre email : JsStrVal)
    (hn : nombre.truthy = true) (hn2 : 2 ≤ (jsTrim nombre.strOrEmpty).length)
    (hv : email.truthy = true) (he : esEmailValido email.strOrEmpty = true) :
    validarDatosUsuario ⟨nombre, email, .null⟩ true = .ok () ∧
    validarDatosUsuario ⟨nombre, email, .undefined⟩ true =
      .error (.typeError "Cannot read properties of undefined (reading length)") ∧
    (∀ p : String, p.length < 6 →
      validarDatosUsuario ⟨nombre, email, .str p⟩ true =
        .error (.plainError
          "La contraseña debe tener al menos 6 caracteres (o déjela vacía para no cambiarla)")) ∧
    (∀ pw : JsStrVal, (pw = .null ∨ pw = .undefined ∨ ∃ p, pw = .str p ∧ p.length < 6) →
      validarDatosUsuario ⟨nombre, email, pw⟩ false =
        .error (.plainError "La contraseña es obligatoria y debe tener al menos 6 caracteres")) := by
  refine ⟨?_, ?_, ?_, ?_⟩
  · rw [validarDatosUsuario_password_step _ _ _ _ hn hn2 hv he]; rfl
  · rw [validarDatosUsuario_password_step _ _ _ _ hn hn2 hv he]; rfl
  · intro p hp
    rw [validarDatosUsuario_password_step _ _ _ _ hn hn2 hv he]
    simp [hp]
  · rintro pw (rfl | rfl | ⟨p, rfl, hp⟩) <;>
      rw [validarDatosUsuario_password_step _ _ _ _ hn hn2 hv he]
    · rfl
    · rfl
    · by_cases hpe : p.data.isEmpty = true
      · simp [JsStrVal.truthy, hpe]
      · simp [JsStrVal.truthy, JsStrVal.strOrEmpty, hpe, hp]

/-- C1 witness: the amended theorem applied at a concrete valid name and
email, showing the null password accepted in edit mode. -/
theorem validarDatosUsuario_password_branching_witness :
    validarDatosUsuario ⟨.str "Juan", .str "juan@example.com", .null⟩ true = .ok () :=
  (validarDatosUsuario_password_branching (.str "Juan") (.str "juan@example.com")
    (by decide) (by decide) (by decide) (by decide)).1

/-- C2: `escaparHTML` leaves a double quote and a single quote (39)
unchanged, while it does escape the ampersand and the angle brackets.
The claim (and the JSDoc of the function itself) says all five characters
are entity-encoded, but the textContent-innerHTML round trip only escapes
the text-node set. -/
theorem escaparHTML_leaves_quotes_unchanged :
    escaparHTML "\"" = "\"" ∧
    escaparHTML (String.singleton (Char.ofNat 39)) = String.singleton (Char.ofNat 39) ∧
    escaparHTML "<script>" = "&lt;script&gt;" ∧
    escaparHTML "&" = "&amp;" := by
  decide

/-- C3: `esEmailValido` returns false whenever any of the listed
conditions holds: total length over 254, two consecutive dots anywhere,
not exactly one `@`, local part over 64 characters, local part starting
or ending with a dot, or a final domain label shorter than 2
characters. -/
theorem esEmailValido_rejects_each_condition (s : String)
    (h : 254 < s.length ∨ containsDoubleDot s.data = true ∨ s.data.count '@' ≠ 1 ∨
         64 < (localPartOf s.data).length ∨ (localPartOf s.data).head? = some '.' ∨
         (localPartOf s.data).getLast? = some '.' ∨ (tldOf s.data).length < 2) :
    esEmailValido s = false := by
  cases hb : esEmailValido s with
  | false => rfl
  | true =>
    exfalso
    obtain ⟨h254, hsl, h64, htld, hdd, hh, hgl⟩ := esEmailValidoList_true s.data hb
    have hsplit := splitOnChar_length '@' s.data
    have hlen : s.length = s.data.length := rfl
    rcases h with h | h | h | h | h | h | h
    · omega
    · rw [h] at hdd; exact Bool.noConfusion hdd
    · omega
    · omega
    · exact hh h
    · exact hgl h
    · omega

/-- C3 witness: a one-character TLD is rejected. -/
theorem esEmailValido_rejects_witness : esEmailValido "user@domain.c" = false :=
  esEmailValido_rejects_each_condition "user@domain.c" (by decide)

/-- C4: for every response with status outside the 200-299 success range,
`handleResponse` raises an ApiError whose code is the numeric status,
whose details payload is the raw parsed body, and whose message is
computed by `bodyErrorMessage`: the joined `detalles` array when present,
else the nonempty `error` string, else the generic fallback. -/
theorem handleResponse_non2xx_raises (r : HttpResponse)
    (h : r.status < 200 ∨ 300 ≤ r.status) :
    handleResponse r =
      .error (.apiError (bodyErrorMessage (parsedBody r)) r.status (some (parsedBody r))) := by
  have h204 : ¬ r.status = 204 := by omega
  have hok : responseOk r = false := by
    unfold responseOk
    rcases h with h | h
    · have h2 : ¬ 200 ≤ r.status := by omega
      simp [h2]
    · have h2 : ¬ r.status ≤ 299 := by omega
      simp [h2]
  simp only [handleResponse]
  rw [if_neg h204, if_pos hok]

/-- C4 witness: a 404 JSON response with body containing the error field
"not found" yields an ApiError with code 404 and message "not found". -/
theorem handleResponse_non2xx_witness :
    handleResponse ⟨404, true, none, some "not found", ""⟩ =
      .error (.apiError "not found" 404 (some (.json none (some "not found")))) :=
  handleResponse_non2xx_raises ⟨404, true, none, some "not found", ""⟩ (by decide)

/-- C5: every value that is not an integer strictly greater than zero
makes `obtenerUsuarioPorId`, `actualizarUsuario` and `eliminarUsuario`
raise the id-guard TypeError before any HTTP request exists; for every
positive integer id, none of the three raises that TypeError (the update
can still raise record-validation errors, which are never the id-guard
TypeError). -/
theorem id_guard_positive_integer :
    (∀ id : IdVal, esIdValido id = false →
      obtenerUsuarioPorId id = .error (idTypeError id) ∧
      eliminarUsuario id = .error (idTypeError id) ∧
      ∀ u, actualizarUsuario id u = .error (idTypeError id)) ∧
    (∀ id : IdVal, esIdValido id = true →
      obtenerUsuarioPorId id ≠ .error (idTypeError id) ∧
      eliminarUsuario id ≠ .error (idTypeError id) ∧
      ∀ u, actualizarUsuario id u ≠ .error (idTypeError id)) := by
  constructor
  · intro id hid
    cases id with
    | int n =>
      have hn : n ≤ 0 := by
        unfold esIdValido at hid
        simp at hid
        omega
      exact ⟨by simp [obtenerUsuarioPorId, if_pos hn],
        by simp [eliminarUsuario, if_pos hn],
        fun u => by simp [actualizarUsuario, if_pos hn]⟩
    | nonInt t => exact ⟨rfl, rfl, fun u => rfl⟩
  · intro id hid
    cases id with
    | int n =>
      have hn : ¬ n ≤ 0 := by
        unfold esIdValido at hid
        simp at hid
        omega
      refine ⟨by simp [obtenerUsuarioPorId, if_neg hn], by simp [eliminarUsuario, if_neg hn],
        fun u => ?_⟩
      unfold actualizarUsuario
      dsimp only
      rw [if_neg hn]
      cases hv : validarDatosUsuario u true with
      | ok v => simp
      | error e =>
        simp only []
        intro hc
        injection hc with hc2
        exact validar_error_ne_idTypeError u true (.int n) e hv hc2
    | nonInt t => simp [esIdValido] at hid

/-- C5 witness: a string id raises the TypeError; id 5 does not. -/
theorem id_guard_positive_integer_witness :
    obtenerUsuarioPorId (.nonInt "string (abc)") =
      .error (idTypeError (.nonInt "string (abc)")) ∧
    obtenerUsuarioPorId (.int 5) ≠ .error (idTypeError (.int 5)) :=
  ⟨(id_guard_positive_integer.1 (.nonInt "string (abc)") (by decide)).1,
   (id_guard_positive_integer.2 (.int 5) (by decide)).1⟩

/-- C6: when the fetch underlying `fetchWithTimeout` rejects with an
AbortError (which is how expiry of the timeout timer surfaces), the
function raises the 408 "request timed out" ApiError; every rejection
with any other error name propagates unchanged, not wrapped. -/
theorem fetchWithTimeout_abort_maps_to_408 :
    (∀ e : JsErr, e.name = "AbortError" →
      fetchWithTimeout (.rejected e) =
        .error (.apiError "La petición excedió el tiempo de espera" 408 none)) ∧
    (∀ e : JsErr, e.name ≠ "AbortError" → fetchWithTimeout (.rejected e) = .error e) := by
  constructor <;> intro e he <;> simp [fetchWithTimeout, he]

/-- C6 witness: an abort becomes the 408 ApiError; a network TypeError
propagates as itself. -/
theorem fetchWithTimeout_abort_witness :
    fetchWithTimeout (.rejected (.abortError "signal is aborted without reason")) =
      .error (.apiError "La petición excedió el tiempo de espera" 408 none) ∧
    fetchWithTimeout (.rejected (.typeError "Failed to fetch")) =
      .error (.typeError "Failed to fetch") :=
  ⟨fetchWithTimeout_abort_maps_to_408.1 _ (by decide),
   fetchWithTimeout_abort_maps_to_408.2 _ (by decide)⟩

/-- C7: the advisory message produced by `manejarError` is: for an
ApiError, the validation-prefixed message at status 400, the fixed
"Usuario no encontrado" at 404, the backend message unchanged at 409,
the fixed internal-error text at 500, and the error message itself at
any other status; for a non-ApiError, its own message when nonempty, and
otherwise the supplied generic default. -/
theorem manejarError_status_mapping (mensajeGenerico : String) :
    (∀ msg det, manejarError (.apiError msg 400 det) mensajeGenerico =
      "Error de validación: " ++ msg) ∧
    (∀ msg det, manejarError (.apiError msg 404 det) mensajeGenerico = "Usuario no encontrado") ∧
    (∀ msg det, manejarError (.apiError msg 409 det) mensajeGenerico = msg) ∧
    (∀ msg det, manejarError (.apiError msg 500 det) mensajeGenerico =
      "Error interno del servidor. Intente nuevamente.") ∧
    (∀ msg st det, st ≠ 400 → st ≠ 404 → st ≠ 409 → st ≠ 500 →
      manejarError (.apiError msg st det) mensajeGenerico = msg) ∧
    (∀ e : JsErr, e.isApiError = false → e.message ≠ "" →
      manejarError e mensajeGenerico = e.message) ∧
    (∀ e : JsErr, e.isApiError = false → e.message = "" →
      manejarError e mensajeGenerico = mensajeGenerico) := by
  refine ⟨fun msg det => rfl, fun msg det => rfl, fun msg det => rfl, fun msg det => rfl,
    ?_, ?_, ?_⟩
  · intro msg st det h1 h2 h3 h4
    simp [manejarError, h1, h2, h3, h4]
  · intro e hap hmsg
    cases e with
    | apiError m s d => exact absurd hap (by simp [JsErr.isApiError])
    | typeError m =>
      simp only [JsErr.message] at hmsg ⊢
      simp [manejarError, JsErr.message, string_data_isEmpty_false m hmsg]
    | plainError m =>
      simp only [JsErr.message] at hmsg ⊢
      simp [manejarError, JsErr.message, string_data_isEmpty_false m hmsg]
    | abortError m =>
      simp only [JsErr.message] at hmsg ⊢
      simp [manejarError, JsErr.message, string_data_isEmpty_false m hmsg]
  · intro e hap hmsg
    cases e with
    | apiError m s d => exact absurd hap (by simp [JsErr.isApiError])
    | typeError m =>
      simp only [JsErr.message] at hmsg
      subst hmsg
      rfl
    | plainError m =>
      simp only [JsErr.message] at hmsg
      subst hmsg
      rfl
    | abortError m =>
      simp only [JsErr.message] at hmsg
      subst hmsg
      rfl

/-- C7 witness: a 404 ApiError is shown as "Usuario no encontrado", and
a plain network error is shown with its own message. -/
theorem manejarError_status_mapping_witness :
    manejarError (.apiError "x" 404 none) "Error al cargar los usuarios" =
      "Usuario no encontrado" ∧
    manejarError (.plainError "Failed to fetch") "Error al cargar los usuarios" =
      "Failed to fetch" :=
  ⟨(manejarError_status_mapping "Error al cargar los usuarios").2.1 "x" none,
   (manejarError_status_mapping "Error al cargar los usuarios").2.2.2.2.2.1
     (.plainError "Failed to fetch") (by decide) (by decide)⟩

/-- C8: `handleResponse` on any response with status 204 returns the
success sentinel; the statement quantifies over every body and
content-type, so the result does not depend on them. -/
theorem handleResponse_204_success_sentinel (r : HttpResponse) (h : r.status = 204) :
    handleResponse r = .ok .success := by
  unfold handleResponse
  rw [if_pos h]

/-- C8 witness: a 204 response with an arbitrary nonempty body. -/
theorem handleResponse_204_witness :
    handleResponse ⟨204, true, some ["ignored"], some "ignored", "ignored"⟩ = .ok .success :=
  handleResponse_204_success_sentinel ⟨204, true, some ["ignored"], some "ignored", "ignored"⟩ rfl

/-- C9: on an edit submit whose password field is empty after trimming,
the extractor maps it to null, the edit-mode validation accepts the
record, and the PUT request of `actualizarUsuario` carries the
stringified record, whose body reads `"password":null` - no default
password is substituted. -/
theorem edit_empty_password_null_flow (n e p : String) (id : Int)
    (hp : (jsTrim p).data.isEmpty = true)
    (h1 : (JsStrVal.str (jsTrim n)).truthy = true)
    (h2 : 2 ≤ (jsTrim (jsTrim n)).length)
    (h3 : (JsStrVal.str (jsTrim e)).truthy = true)
    (h4 : esEmailValido (jsTrim e) = true)
    (hid : 0 < id) :
    obtenerDatosFormulario n e p = ⟨.str (jsTrim n), .str (jsTrim e), .null⟩ ∧
    validarDatosUsuario (obtenerDatosFormulario n e p) true = .ok () ∧
    actualizarUsuario (.int id) (obtenerDatosFormulario n e p) =
      .ok ⟨"PUT", API_BASE_URL ++ "/" ++ toString id,
        some (stringifyUsuario ⟨.str (jsTrim n), .str (jsTrim e), .null⟩)⟩ ∧
    stringifyUsuario ⟨.str (jsTrim n), .str (jsTrim e), .null⟩ =
      "\x7b\"nombre\":" ++ jsonQuote (jsTrim n) ++ ",\"email\":" ++ jsonQuote (jsTrim e) ++
        ",\"password\":null\x7d" := by
  have hu : obtenerDatosFormulario n e p = ⟨.str (jsTrim n), .str (jsTrim e), .null⟩ := by
    unfold obtenerDatosFormulario
    dsimp only
    rw [if_pos hp]
  have hval : validarDatosUsuario (obtenerDatosFormulario n e p) true = .ok () := by
    rw [hu, validarDatosUsuario_password_step _ _ _ _ h1 h2 h3 h4]
    rfl
  refine ⟨hu, hval, ?_, stringify_null_password _ _⟩
  rw [hu] at hval ⊢
  unfold actualizarUsuario
  dsimp only
  rw [if_neg (by omega : ¬ id ≤ 0), hval]

/-- C9 witness: the flow applied at a concrete edit submit with empty
password, showing the fully rendered PUT body with `"password":null`. -/
theorem edit_empty_password_null_flow_witness :
    actualizarUsuario (.int 3) (obtenerDatosFormulario "Juan Perez" "juan@example.com" "") =
      .ok ⟨"PUT", "https://usuarios-mvgv.onrender.com/api/usuarios/3",
        some "\x7b\"nombre\":\"Juan Perez\",\"email\":\"juan@example.com\",\"password\":null\x7d"⟩ :=
  ((edit_empty_password_null_flow "Juan Perez" "juan@example.com" "" 3
      (by decide) (by decide) (by decide) (by decide) (by decide) (by decide)).2.2.1).trans
    (by decide)

/-- C10: `esEmailValido` is total on string, null and undefined inputs:
it always returns a boolean (never raises), and for null, undefined and
the empty string it returns false through the initial falsy guard. -/
theorem esEmailValido_total_on_falsy :
    (∀ v : JsStrVal, ∃ b : Bool, esEmailValidoJS v = .ok b) ∧
    esEmailValidoJS .null = .ok false ∧ esEmailValidoJS .undefined = .ok false ∧
    esEmailValidoJS (.str "") = .ok false := by
  refine ⟨?_, rfl, rfl, rfl⟩
  intro v
  unfold esEmailValidoJS
  split
  · exact ⟨false, rfl⟩
  · exact ⟨esEmailValido v.strOrEmpty, rfl⟩
